import Mathlib

/-!
Shallow embedding of the hbinseek container engine (src/src/hbinseek.py) and
verification of the specification claims about it.

Modelling conventions:
- Python byte strings and the UTF-8 encodings of `str` values are modelled as
  `List Nat` (one entry per byte).  Group and array names flow through the
  source as `str` values that are immediately UTF-8 encoded; the model keeps
  them as their byte lists throughout (the byte 47 is the slash, 58 the colon).
- File streams are modelled as the list of bytes written so far; `tell` is the
  length of that list.
- Fallible operations return `Except Err _`; state-threading functions return
  the updated state paired with the `Except` outcome, so that a failure after a
  partial write can expose the partial state exactly as the source does.
-/

namespace Hbinseek

/-- Error taxonomy of the Python exceptions raised by the source. -/
inductive Err where
  | runtimeError
  | valueError
  | assertionError
  | structError
  | ioError
  | osError
deriving DecidableEq, Repr

/-- MAX_UNSIGNED_LONG = 2 ** 64 - 1 (line 73 of the source). -/
def MAX_UNSIGNED_LONG : Nat := 2 ^ 64 - 1

/-- struct.pack(PACK_UNSIGNED_LONG, n) where PACK_UNSIGNED_LONG is the format
string of a little-endian standard-size unsigned long (line 72).  The standard
size of that format code is 4 bytes, so values of 2 ^ 32 and above raise
struct.error (modelled as `none`); smaller values pack to exactly 4 bytes,
little-endian. -/
def packUnsignedLong (n : Nat) : Option (List Nat) :=
  if n < 2 ^ 32 then
    some [n % 256, n / 256 % 256, n / 65536 % 256, n / 16777216 % 256]
  else none

/-- Modelled from the spec: "All length/count fields are fixed-width unsigned
64-bit little-endian integers."  The 8-byte little-endian encoding the spec
describes, failing only beyond 2 ^ 64 - 1.  Used solely to compare the spec
wording with the encoder actually in the source (`packUnsignedLong`). -/
def packUnsignedLongSpec (n : Nat) : Option (List Nat) :=
  if n ≤ MAX_UNSIGNED_LONG then
    some [n % 256, n / 2 ^ 8 % 256, n / 2 ^ 16 % 256, n / 2 ^ 24 % 256,
      n / 2 ^ 32 % 256, n / 2 ^ 40 % 256, n / 2 ^ 48 % 256, n / 2 ^ 56 % 256]
  else none

/-- Little-endian value of a byte list (to state that packing is faithful). -/
def fromLE : List Nat → Nat
  | [] => 0
  | b :: bs => b + 256 * fromLE bs

/-- Attribute values: the Python value kinds relevant to set_attr.  The first
four constructors are the members of VALID_ATTR_TYPES = (int, float, str,
bytes) (line 64, Python 3 branch); `otherV` stands for a value of any other
Python type (carrying that type's name).  A float is carried as the 8 bytes
struct.pack(PACK_DOUBLE, v) would produce, since IEEE-754 layout is opaque to
every claim. -/
inductive AttrValue where
  | intV (n : Int)
  | floatV (packedLE : List Nat)
  | strV (utf8Bytes : List Nat)
  | bytesV (b : List Nat)
  | otherV (typeName : List Nat)
deriving DecidableEq, Repr

/-- isinstance(value, VALID_ATTR_TYPES) (line 207). -/
def isValidAttrType : AttrValue → Bool
  | .otherV _ => false
  | _ => true

/-- The read-only view of a numpy array that the engine consumes (the spec
scopes array construction out and requires only: element type tag, shape,
memory order, contiguous byte buffer).  `contentBytes` is what
data.tobytes with the C argument returns: the row-major byte serialization of
the logical contents; for element types of item size 1 it is exactly the
row-major element list.  `fContiguous` is the data.flags.f_contiguous flag. -/
structure NpView where
  shape : List Nat
  dtypeStr : List Nat
  fContiguous : Bool
  contentBytes : List Nat
deriving DecidableEq, Repr

/-- The order byte recorded by _write_array (lines 517-519): 67 is the byte
for C, 70 the byte for F; F is recorded exactly when the view is
Fortran-contiguous. -/
def orderByte (d : NpView) : Nat :=
  if d.fContiguous then 70 else 67

/-- _Array: the immutable array handle (lines 78-92). -/
structure ArrayHandle where
  name : List Nat
  recordOffset : Nat
  dataOffset : Nat
  dtypeStr : List Nat
  shape : List Nat
  order : Nat
  bytesLen : Nat
deriving DecidableEq, Repr

/-- _Group, restricted to the fields the claims touch: name (last path
segment), absolute path, attribute mapping and array mapping.  The mappings
are association lists in insertion order, matching Python dict semantics.
The children mapping and the weak parent reference are not consulted by any
claim and are omitted. -/
structure GroupState where
  name : List Nat
  path : List Nat
  attrs : List (List Nat × AttrValue)
  arrays : List (List Nat × ArrayHandle)
deriving DecidableEq, Repr

/-- _HBinseek session state: mode (the byte list of the mode string), the
bytes written so far to the binary data stream and to the log stream, and the
_all_groups path map (association list in insertion order). -/
structure Session where
  mode : List Nat
  binaryData : List Nat
  logData : List Nat
  allGroups : List (List Nat × GroupState)
deriving DecidableEq, Repr

/-- The mode string r as bytes. -/
def rMode : List Nat := [114]

/-- The mode string w as bytes. -/
def wMode : List Nat := [119]

/-- Python dict assignment d[k] = v on an insertion-ordered association
list: replace in place if the key exists, append otherwise. -/
def dictSet {α : Type} (m : List (List Nat × α)) (k : List Nat) (v : α) :
    List (List Nat × α) :=
  if m.any (fun p => p.1 == k) then
    m.map (fun p => if p.1 == k then (k, v) else p)
  else m ++ [(k, v)]

/-- Python dict lookup returning an optional value. -/
def dictGet? {α : Type} (m : List (List Nat × α)) (k : List Nat) : Option α :=
  (m.find? (fun p => p.1 == k)).map (·.2)

/-- The byte string ATTR: (record-kind tag of an attribute record, line 423). -/
def ATTR_TAG : List Nat := [65, 84, 84, 82, 58]

/-- The byte string ARR: (record-kind tag of an array record, line 488). -/
def ARR_TAG : List Nat := [65, 82, 82, 58]

/-- The byte string text: (line 439). -/
def TEXT_TAG : List Nat := [116, 101, 120, 116, 58]

/-- The byte string byte: (line 449). -/
def BYTE_TAG : List Nat := [98, 121, 116, 101, 58]

/-- The byte string doub: (line 458). -/
def DOUB_TAG : List Nat := [100, 111, 117, 98, 58]

/-- The binary data file header b percent-BINSEEK v001 newline (line 325). -/
def BINSEEK_HEADER : List Nat :=
  [37, 66, 73, 78, 83, 69, 69, 75, 32, 118, 48, 48, 49, 10]

/-- The log file header b percent-BINSEEKLOG v001 newline (line 326). -/
def BINSEEKLOG_HEADER : List Nat :=
  [37, 66, 73, 78, 83, 69, 69, 75, 76, 79, 71, 32, 118, 48, 48, 49, 10]

/-- The to_log record that _HBinseek._write_set_attr (lines 417-464) builds:
kind tag, length-prefixed group name, colon, length-prefixed attribute name,
colon, then the tagged value.  In the Python 3 branch of the source the long
branch is guarded by not PY3_ONWARDS (line 461), so for an int value no type
tag or payload is ever appended and the list ends after the name fields; the
same holds for a value of any other type, since no branch matches it.
Failures: struct.error from a length of 2 ^ 32 or more in a pack call, and
the explicit assert that a text or byte payload is at most
MAX_UNSIGNED_LONG bytes long. -/
def buildAttrRecord (groupName attrName : List Nat) (v : AttrValue) :
    Except Err (List Nat) :=
  match packUnsignedLong groupName.length with
  | none => .error .structError
  | some gl =>
    match packUnsignedLong attrName.length with
    | none => .error .structError
    | some al =>
      let head := ATTR_TAG ++ gl ++ groupName ++ [58] ++ al ++ attrName ++ [58]
      match v with
      | .strV bs =>
        if bs.length ≤ MAX_UNSIGNED_LONG then
          match packUnsignedLong bs.length with
          | none => .error .structError
          | some pl => .ok (head ++ TEXT_TAG ++ pl ++ bs)
        else .error .assertionError
      | .bytesV bs =>
        if bs.length ≤ MAX_UNSIGNED_LONG then
          match packUnsignedLong bs.length with
          | none => .error .structError
          | some pl => .ok (head ++ BYTE_TAG ++ pl ++ bs)
        else .error .assertionError
      | .floatV packed => .ok (head ++ DOUB_TAG ++ packed)
      | .intV _ => .ok head
      | .otherV _ => .ok head

/-- _Group.set_attr (lines 205-211): validate the value type against
VALID_ATTR_TYPES (raising ValueError otherwise, before any mutation), call
_HBinseek._write_set_attr, then update the in-memory attribute mapping.
_write_set_attr builds its to_log record but contains no write to the log
stream or the binary stream, so the session - including both streams - is
returned unchanged and the built record is discarded; it performs no
_check_writable call either, so the session mode is never consulted. -/
def setAttr (sess : Session) (g : GroupState) (attrName : List Nat)
    (v : AttrValue) : Except Err (Session × GroupState) :=
  if isValidAttrType v = false then .error .valueError
  else
    match buildAttrRecord g.name attrName v with
    | .error e => .error e
    | .ok _ => .ok (sess, { g with attrs := dictSet g.attrs attrName v })

/-- Packs each dimension size in order (the loop at lines 512-513). -/
def packShape : List Nat → Except Err (List Nat)
  | [] => .ok []
  | d :: ds =>
    match packUnsignedLong d with
    | none => .error .structError
    | some b =>
      match packShape ds with
      | .error e => .error e
      | .ok rest => .ok (b ++ rest)

/-- The record_start bytes that _HBinseek._write_array builds (lines
487-524): the ARR: tag; length-prefixed group name and colon; length-prefixed
array name and colon; packed payload byte count and colon; length-prefixed
dtype tag string and colon; packed dimension count followed by each packed
dimension size and colon; then one more colon and the single order byte
(lines 514-521 append a colon after the shape and another colon before the
order byte). -/
def arrayRecordHeader (groupName arrayName : List Nat) (d : NpView) :
    Except Err (List Nat) :=
  match packUnsignedLong groupName.length with
  | none => .error .structError
  | some gl =>
    match packUnsignedLong arrayName.length with
    | none => .error .structError
    | some al =>
      match packUnsignedLong d.contentBytes.length with
      | none => .error .structError
      | some bl =>
        match packUnsignedLong d.dtypeStr.length with
        | none => .error .structError
        | some dl =>
          match packUnsignedLong d.shape.length with
          | none => .error .structError
          | some nd =>
            match packShape d.shape with
            | .error e => .error e
            | .ok dims =>
              .ok (ARR_TAG ++ gl ++ groupName ++ [58] ++ al ++ arrayName
                ++ [58] ++ bl ++ [58] ++ dl ++ d.dtypeStr ++ [58] ++ nd
                ++ dims ++ [58] ++ [58] ++ [orderByte d])

/-- _HBinseek._write_array (lines 466-551): check writability, normalize the
payload to row-major bytes (tobytes with the C argument), assert the payload
length is at most MAX_UNSIGNED_LONG, take the current binary offset, build
the record header (struct.error there happens before any stream write),
append header plus payload to the binary stream, then append the header, the
packed originating offset and a newline to the log stream.  If packing the
originating offset raises struct.error, the binary write has already happened
and the log has already received the header bytes (the source writes
record_start to the log before evaluating the pack call), which the returned
partial state reflects.  On success the returned handle records the header
start offset, the payload start offset, the dtype tag, the shape, the order
byte and the payload length. -/
def writeArray (sess : Session) (groupName arrayName : List Nat)
    (d : NpView) : Session × Except Err ArrayHandle :=
  if sess.mode ≠ wMode then (sess, .error .runtimeError)
  else if MAX_UNSIGNED_LONG < d.contentBytes.length then
    (sess, .error .assertionError)
  else
    match arrayRecordHeader groupName arrayName d with
    | .error e => (sess, .error e)
    | .ok recordStart =>
      match packUnsignedLong sess.binaryData.length with
      | none =>
        ({ sess with
            binaryData := sess.binaryData ++ recordStart ++ d.contentBytes,
            logData := sess.logData ++ recordStart },
          .error .structError)
      | some offBytes =>
        ({ sess with
            binaryData := sess.binaryData ++ recordStart ++ d.contentBytes,
            logData := sess.logData ++ recordStart ++ offBytes ++ [10] },
          .ok { name := arrayName,
                recordOffset := sess.binaryData.length,
                dataOffset := sess.binaryData.length + recordStart.length,
                dtypeStr := d.dtypeStr, shape := d.shape,
                order := orderByte d, bytesLen := d.contentBytes.length })

/-- _Group.create_array (lines 195-200): delegate to _write_array, passing
this group's NAME (self._name, not self._path), then record the returned
handle under the array name in this group's array mapping. -/
def createArrayOnGroup (sess : Session) (g : GroupState)
    (arrayName : List Nat) (d : NpView) : Session × Except Err GroupState :=
  match writeArray sess g.name arrayName d with
  | (sess1, .error e) => (sess1, .error e)
  | (sess1, .ok h) =>
    (sess1, .ok { g with arrays := dictSet g.arrays arrayName h })

/-- Product of a dimension list. -/
def shapeProd (l : List Nat) : Nat := l.foldr (fun a b => a * b) 1

/-- Row-major (C-order) flat index of an index tuple for a shape. -/
def cIndex : List Nat → List Nat → Nat
  | _ :: ss, i :: is => i * shapeProd ss + cIndex ss is
  | _, _ => 0

/-- All index tuples of a shape, enumerated in row-major order. -/
def cIndices : List Nat → List (List Nat)
  | [] => [[]]
  | s :: ss =>
    (List.range s).flatMap (fun i => (cIndices ss).map (fun t => i :: t))

/-- The item size in bytes of a numpy dtype tag string such as the
little-endian int16 tag: the decimal digits that end the tag. -/
def dtypeItemsize (dtypeStr : List Nat) : Nat :=
  (dtypeStr.dropWhile (fun b => ¬(48 ≤ b ∧ b ≤ 57))).foldl
    (fun acc b => acc * 10 + (b - 48)) 0

/-- Helper for chunkBytes: walk the byte list, accumulating the current
item in reverse and emitting it once it reaches k bytes. -/
def chunkAux (k : Nat) : List Nat → List Nat → List (List Nat)
  | [], acc => if acc = [] then [] else [acc.reverse]
  | b :: bs, acc =>
    if acc.length + 1 = k then (b :: acc).reverse :: chunkAux k bs []
    else chunkAux k bs (b :: acc)

/-- numpy.fromstring: reinterpret a byte list as consecutive items of k
bytes each. -/
def chunkBytes (k : Nat) (l : List Nat) : List (List Nat) :=
  if k = 0 then [] else chunkAux k l []

/-- The reshaping step of _Array.read_numpy (lines 159-164), acting on the
item list produced by numpy.fromstring.  For order byte 70 (F) the source
assigns the REVERSED shape and then transposes, so logical element (i0..ik)
of the result is the flat item at the row-major index of (ik..i0) under the
reversed shape; the returned list is the row-major enumeration of the
result.  For order byte 67 (C) the source assigns the recorded shape
directly, leaving the flat row-major items as read. -/
def readDecode {α : Type} (dflt : α) (flat : List α) (shape : List Nat)
    (order : Nat) : List α :=
  if order = 70 then
    (cIndices shape).map
      (fun idx => flat.getD (cIndex shape.reverse idx.reverse) dflt)
  else flat

/-- _Array.read_numpy (lines 146-166): reject unless the session mode is r;
seek to the data offset and read bytes_len bytes (a read past the end of the
stream returns only the available bytes); raise IOError when fewer bytes come
back than requested; otherwise reinterpret the bytes as items of the recorded
dtype and reshape per the recorded shape and order.  Returns the shape
together with the row-major item list of the result, each item being its
byte list. -/
def readNumpy (sess : Session) (h : ArrayHandle) :
    Except Err (List Nat × List (List Nat)) :=
  if sess.mode ≠ rMode then .error .runtimeError
  else
    let bytesRead := (sess.binaryData.drop h.dataOffset).take h.bytesLen
    if bytesRead.length ≠ h.bytesLen then .error .ioError
    else
      let items := chunkBytes (dtypeItemsize h.dtypeStr) bytesRead
      .ok (h.shape, readDecode [] items h.shape h.order)

/-- Python str.split on one separator byte: always returns at least one
(possibly empty) segment, and adjacent separators yield empty segments. -/
def splitOnByte (sep : Nat) : List Nat → List (List Nat)
  | [] => [[]]
  | b :: bs =>
    match splitOnByte sep bs with
    | [] => [[]]
    | h :: t => if b = sep then [] :: h :: t else (b :: h) :: t

/-- The substring test for a double slash used by _Group.__init__ (line
181). -/
def hasDoubleSlash : List Nat → Bool
  | [] => false
  | [_] => false
  | a :: b :: rest =>
    if a = 47 ∧ b = 47 then true else hasDoubleSlash (b :: rest)

/-- The root group _Group(None, self, slash, slash) (line 311).  The root is
not registered in _all_groups. -/
def rootGroup : GroupState :=
  { name := [47], path := [47], attrs := [], arrays := [] }

/-- The loop of _HBinseek.create_group (lines 405-414), carrying the current
full path (including its trailing slash) and the group bound by the previous
iteration.  For each path segment: extend the path, look it up in
_all_groups; on a miss, _Group.__init__ raises RuntimeError when the new path
contains a double slash - AFTER earlier iterations have already inserted
their groups, which the returned partial state keeps - and otherwise the new
group is inserted.  (The source loop always runs at least once because
str.split never returns an empty list, so the empty-segment-list case is
unreachable from createGroup.) -/
def createGroupAux : Session → List (List Nat) → List Nat → GroupState →
    Session × Except Err GroupState
  | sess, [], _, lastGroup => (sess, .ok lastGroup)
  | sess, part :: rest, fullPath, _ =>
    let fullPath1 := fullPath ++ part
    match dictGet? sess.allGroups fullPath1 with
    | some g => createGroupAux sess rest (fullPath1 ++ [47]) g
    | none =>
      if hasDoubleSlash fullPath1 then (sess, .error .runtimeError)
      else
        let g : GroupState :=
          { name := part, path := fullPath1, attrs := [], arrays := [] }
        let sess1 :=
          { sess with allGroups := sess.allGroups ++ [(fullPath1, g)] }
        createGroupAux sess1 rest (fullPath1 ++ [47]) g

/-- _HBinseek.create_group (lines 396-415): an empty path raises ValueError
before anything else; the path must start with a slash (assert); the leading
slash is stripped and the remainder is split on slashes and walked by
createGroupAux starting from the root group and the path consisting of the
single slash byte. -/
def createGroup (sess : Session) (groupName : List Nat) :
    Session × Except Err GroupState :=
  if groupName = [] then (sess, .error .valueError)
  else if groupName.head? ≠ some 47 then (sess, .error .assertionError)
  else createGroupAux sess (splitOnByte 47 (groupName.drop 1)) [47] rootGroup

/-- Python object model fragment for the two assert lines 284 and 289: the
values that can reach those asserts are str instances, and the expression
compares the class of a str (the type object str) with a str instance. -/
inductive PyObj where
  | strObj (s : List Nat)
  | typeStrObj
deriving DecidableEq, Repr

/-- Python equality on that fragment: a type object never equals a str
instance. -/
def pyEq : PyObj → PyObj → Bool
  | .strObj a, .strObj b => a == b
  | .typeStrObj, .typeStrObj => true
  | _, _ => false

/-- Python class-of on that fragment: the class of every str instance is the
type object str. -/
def pyClass : PyObj → PyObj
  | .strObj _ => .typeStrObj
  | .typeStrObj => .typeStrObj

/-- os.path.splitext root part, modelled as the bytes before the last dot
(the whole name when there is no dot).  Only default-filename derivation
uses it and no claim depends on its corner cases. -/
def splitextRoot (fn : List Nat) : List Nat :=
  match fn.reverse.findIdx? (fun b => b == 46) with
  | none => fn
  | some i => fn.take (fn.length - i - 1)

/-- Default binary data filename: metadata root plus .hdat (line 282). -/
def defaultBinaryName (fn : List Nat) : List Nat :=
  splitextRoot fn ++ [46, 104, 100, 97, 116]

/-- Default log filename: metadata root plus .hlog (line 287). -/
def defaultLogName (fn : List Nat) : List Nat :=
  splitextRoot fn ++ [46, 104, 108, 111, 103]

/-- Lines 281-284: when binary_data_filename is None the default is derived;
otherwise the source asserts that the class of the supplied value equals the
value itself (assert binary_data_filename.__class__ == binary_data_filename),
comparing the type object str with a str instance. -/
def resolveBinary (filename : List Nat) : Option (List Nat) →
    Except Err (List Nat)
  | none => .ok (defaultBinaryName filename)
  | some b =>
    if pyEq (pyClass (.strObj b)) (.strObj b) then .ok b
    else .error .assertionError

/-- Lines 286-289: when log_filename is None the default is derived;
otherwise the source asserts that the class of the supplied value equals
binary_data_filename (assert log_filename.__class__ == binary_data_filename),
comparing the type object str with the resolved binary filename string. -/
def resolveLog (binaryFilename : List Nat) (filename : List Nat) :
    Option (List Nat) → Except Err (List Nat)
  | none => .ok (defaultLogName filename)
  | some l =>
    if pyEq (pyClass (.strObj l)) (.strObj binaryFilename) then .ok l
    else .error .assertionError

/-- _HBinseek.__init__ (lines 267-332) up to and including stream opening
and header writes.  The second component of the result lists the files
opened, in order; every failure happens before any file is opened, so the
list is empty on every error path.  Steps, in source order: resolve the two
optional filenames (the asserts at lines 284 and 289), assert the three
filenames pairwise distinct (lines 291-293), validate the mode string (lines
299-301), in r mode require the metadata file or the log file to exist
(lines 305-308), then open both streams and in w mode write the two format
headers.  The r-mode metadata snapshot load (JSON) is outside the modelled
fragment: the returned r session carries the supplied stream contents and an
empty group map, which no claim consults. -/
def hbinseekInit (filename modeArg : List Nat)
    (binaryDataFilename logFilename : Option (List Nat))
    (existingFiles : List (List Nat)) (binContent logContent : List Nat) :
    Except Err Session × List (List Nat) :=
  match resolveBinary filename binaryDataFilename with
  | .error e => (.error e, [])
  | .ok bfn =>
    match resolveLog bfn filename logFilename with
    | .error e => (.error e, [])
    | .ok lfn =>
      if bfn = filename then (.error .assertionError, [])
      else if lfn = filename then (.error .assertionError, [])
      else if bfn = lfn then (.error .assertionError, [])
      else if modeArg ≠ rMode ∧ modeArg ≠ wMode then (.error .valueError, [])
      else if modeArg = rMode ∧ filename ∉ existingFiles ∧
          lfn ∉ existingFiles then (.error .osError, [])
      else if modeArg = wMode then
        (.ok { mode := wMode, binaryData := BINSEEK_HEADER,
               logData := BINSEEKLOG_HEADER, allGroups := [] }, [bfn, lfn])
      else
        (.ok { mode := rMode, binaryData := binContent,
               logData := logContent, allGroups := [] }, [bfn, lfn])

/-- A session fresh from opening in write mode: both headers written. -/
def freshWriteSession : Session :=
  { mode := wMode, binaryData := BINSEEK_HEADER,
    logData := BINSEEKLOG_HEADER, allGroups := [] }

section ModelValidation

/-- The first array of the repository test (tests/test_hbinseek.py): the
3-element little-endian int16 array 1, 2, 3, written under group B as arr1.
A fresh contiguous one-dimensional numpy array is Fortran-contiguous. -/
def arr1View : NpView :=
  { shape := [3], dtypeStr := [60, 105, 50], fContiguous := true,
    contentBytes := [1, 0, 2, 0, 3, 0] }

/-- The second array of the repository test: the 2 by 2 little-endian int32
array, written under group B as arr2; it is C-contiguous only. -/
def arr2View : NpView :=
  { shape := [2, 2], dtypeStr := [60, 105, 52], fContiguous := false,
    contentBytes :=
      [1, 0, 0, 0, 2, 0, 0, 0, 3, 0, 0, 0, 4, 0, 0, 0] }

/-- First test write, on a fresh write session. -/
def testWrite1 : Session × Except Err ArrayHandle :=
  writeArray freshWriteSession [66] [97, 114, 114, 49] arr1View

/-- Second test write, on the state left by the first. -/
def testWrite2 : Session × Except Err ArrayHandle :=
  writeArray testWrite1.1 [66] [97, 114, 114, 50] arr2View

/-- The model reproduces the byte offsets asserted by the repository test
suite: record_offset 14 and data_offset 57 for arr1, record_offset 63 and
data_offset 110 for arr2.  This pins the modelled record layout (including
the 4-byte length fields) to the behaviour the tests lock in. -/
theorem model_matches_test_offsets :
    testWrite1.2.map (fun h => (h.recordOffset, h.dataOffset)) =
      .ok (14, 57) ∧
    testWrite2.2.map (fun h => (h.recordOffset, h.dataOffset)) =
      .ok (63, 110) := by
  constructor <;> rfl

/-- A read-mode session over given binary data file contents. -/
def readSessionOver (bytes : List Nat) : Session :=
  { mode := rMode, binaryData := bytes, logData := [], allGroups := [] }

/-- The model also reproduces the test round-trips: both arrays read back
from a read-mode session over the written binary bytes with their original
shape and item contents (arr1 as three little-endian int16 items, arr2 as
four int32 items in row-major order). -/
theorem model_matches_test_roundtrip :
    (match testWrite1.2 with
      | .ok h => readNumpy (readSessionOver testWrite2.1.binaryData) h
      | .error e => .error e) =
        .ok ([3], [[1, 0], [2, 0], [3, 0]]) ∧
    (match testWrite2.2 with
      | .ok h => readNumpy (readSessionOver testWrite2.1.binaryData) h
      | .error e => .error e) =
        .ok ([2, 2],
          [[1, 0, 0, 0], [2, 0, 0, 0], [3, 0, 0, 0], [4, 0, 0, 0]]) := by
  constructor <;> rfl

end ModelValidation

section Claims

/-- A 2 by 2 Fortran-contiguous array of 1-byte unsigned items with logical
row-major contents 1, 2, 3, 4 (numpy.asfortranarray of the 2 by 2 array
1 2 / 3 4 with the 1-byte unsigned dtype): its tobytes in C order is
1, 2, 3, 4 and its recorded order byte is F. -/
def fortranView : NpView :=
  { shape := [2, 2], dtypeStr := [124, 117, 49], fContiguous := true,
    contentBytes := [1, 2, 3, 4] }

/-- Writing fortranView on a fresh write session under group G as x. -/
def c1Write : Session × Except Err ArrayHandle :=
  writeArray freshWriteSession [71] [120] fortranView

/-- C1: the claim states that writing any array view and reading it back
yields the original, and in particular that the decoder's
reversed-shape-then-transpose step is the exact inverse of the encoder's
normalize-to-row-major step.  The code violates this: the encoder always
serializes in row-major order (data.tobytes with the C argument) while also
recording order F for a Fortran-contiguous input, and the decoder then
treats the stored row-major bytes as if they were column-major raw memory.
At the failing input (a 2 by 2 column-major array with items 1, 2, 3, 4)
the write succeeds, and the read returns the items in the order
1, 3, 2, 4 - not the original 1, 2, 3, 4. -/
theorem C1_column_major_roundtrip_fails :
    (match c1Write.2 with
      | .ok h => readNumpy (readSessionOver c1Write.1.binaryData) h
      | .error e => .error e) =
        .ok ([2, 2], [[1], [3], [2], [4]]) ∧
    [[1], [3], [2], [4]] ≠
      chunkBytes (dtypeItemsize fortranView.dtypeStr)
        fortranView.contentBytes := by
  exact ⟨rfl, by decide⟩

/-- A sample group, as _Group(parent, hb, G, /G) would build it. -/
def gSample : GroupState :=
  { name := [71], path := [47, 71], attrs := [], arrays := [] }

/-- C2: the claim states that a valid set_attr call appends a mirrored,
newline-terminated attribute record to the structural log together with the
in-memory update.  The code violates this: _write_set_attr builds the
to_log record but never writes it to any stream (and appends no newline), so
the log is left untouched while the in-memory mapping is updated.  Evaluated
at a concrete write-mode session with the attribute name a and the text
value v: set_attr succeeds, the attribute mapping gains the entry, and the
returned session - in particular its structural log - is byte-for-byte the
input session. -/
theorem C2_set_attr_appends_no_log_record :
    setAttr freshWriteSession gSample [97] (.strV [118]) =
      .ok (freshWriteSession,
        { gSample with attrs := [([97], AttrValue.strV [118])] }) ∧
    (buildAttrRecord gSample.name [97] (.strV [118])).isOk = true := by
  exact ⟨rfl, rfl⟩

/-- A read-mode session with some existing binary data. -/
def readOnlySession : Session :=
  { mode := rMode, binaryData := BINSEEK_HEADER,
    logData := BINSEEKLOG_HEADER, allGroups := [] }

/-- C3: the claim states that every write operation - create_array AND
set_attr - on a read-only session fails with a usage error leaving state
unchanged, and that array reads on a write-only session fail with a usage
error.  The code violates the set_attr half: set_attr performs no mode
check (_write_set_attr never calls _check_writable), so on a read-only
session it succeeds and mutates the attribute mapping.  The other two
halves do hold, shown here for contrast: create_array reaches
_check_writable and fails with RuntimeError on the read-only session, and
read_numpy fails with RuntimeError on a write-mode session. -/
theorem C3_set_attr_not_mode_checked :
    setAttr readOnlySession gSample [97] (.intV 1) =
      .ok (readOnlySession,
        { gSample with attrs := [([97], AttrValue.intV 1)] }) ∧
    (writeArray readOnlySession [71] [120] fortranView).2 =
      .error .runtimeError ∧
    readNumpy freshWriteSession
      { name := [120], recordOffset := 14, dataOffset := 57,
        dtypeStr := [124, 117, 49], shape := [1], order := 67,
        bytesLen := 1 } = .error .runtimeError := by
  exact ⟨rfl, rfl, rfl⟩

/-- C4 counterexample: the claim states that every length and count field is
a fixed-width unsigned 64-bit little-endian integer.  The encoder in the
source packs every such field with the standard-size little-endian unsigned
long format, which is 4 bytes wide: packing the length 1 yields the 4-byte
field 1, 0, 0, 0, not the 8-byte field the spec describes (compare
packUnsignedLongSpec, written from the spec wording).  The repository test
suite pins the 4-byte width: the asserted offsets 14, 57, 63, 110 only fit
4-byte length fields (see model_matches_test_offsets). -/
theorem C4_counterexample_field_width :
    packUnsignedLong 1 = some [1, 0, 0, 0] ∧
    packUnsignedLongSpec 1 = some [1, 0, 0, 0, 0, 0, 0, 0] ∧
    packUnsignedLong 1 ≠ packUnsignedLongSpec 1 := by
  refine ⟨rfl, ?_, ?_⟩ <;> decide

/-- C4 amended: every length and count field in an encoded record is a
fixed-width unsigned 32-bit little-endian integer (4 bytes, faithfully
decoding back to the value); a value of 2 ^ 32 or more fails fast at encode
time with struct.error rather than silently wrapping; and in particular an
array payload of 2 ^ 32 up to the assert bound of 2 ^ 64 - 1 bytes makes
_write_array fail with struct.error when packing the payload length, before
anything is written to either stream (the session is returned unchanged). -/
theorem C4_fields_are_32bit_le_and_fail_fast (n : Nat) (sess : Session)
    (g a : List Nat) (d : NpView) :
    (n < 2 ^ 32 →
      ∃ bs, packUnsignedLong n = some bs ∧ bs.length = 4 ∧ fromLE bs = n) ∧
    (2 ^ 32 ≤ n → packUnsignedLong n = none) ∧
    (sess.mode = wMode → g.length < 2 ^ 32 → a.length < 2 ^ 32 →
      2 ^ 32 ≤ d.contentBytes.length →
      d.contentBytes.length ≤ MAX_UNSIGNED_LONG →
      writeArray sess g a d = (sess, .error .structError)) := by
  refine ⟨?_, ?_, ?_⟩
  · intro h
    refine ⟨[n % 256, n / 256 % 256, n / 65536 % 256, n / 16777216 % 256],
      ?_, rfl, ?_⟩
    · unfold packUnsignedLong
      rw [if_pos h]
    · simp only [fromLE]
      omega
  · intro h
    unfold packUnsignedLong
    rw [if_neg (Nat.not_lt.mpr h)]
  · intro hmode hg ha hge hle
    have h1 : packUnsignedLong g.length =
        some [g.length % 256, g.length / 256 % 256, g.length / 65536 % 256,
          g.length / 16777216 % 256] := by
      unfold packUnsignedLong
      rw [if_pos hg]
    have h2 : packUnsignedLong a.length =
        some [a.length % 256, a.length / 256 % 256, a.length / 65536 % 256,
          a.length / 16777216 % 256] := by
      unfold packUnsignedLong
      rw [if_pos ha]
    have h3 : packUnsignedLong d.contentBytes.length = none := by
      unfold packUnsignedLong
      rw [if_neg (Nat.not_lt.mpr hge)]
    have hdr : arrayRecordHeader g a d = .error .structError := by
      unfold arrayRecordHeader
      rw [h1, h2, h3]
    unfold writeArray
    rw [hmode, if_neg (by simp), if_neg (Nat.not_lt.mpr hle), hdr]

/-- A payload of exactly 2 ^ 32 zero bytes for the C4 witness. -/
def bigView : NpView :=
  { shape := [2 ^ 32], dtypeStr := [124, 117, 49], fContiguous := false,
    contentBytes := List.replicate (2 ^ 32) 0 }

/-- C4 witness: the amended theorem applied at concrete inputs - the value 7
packs to a faithful 4-byte field, 2 ^ 32 fails to pack, and a write-mode
session refuses a 2 ^ 32-byte payload with struct.error, unchanged. -/
theorem C4_witness :
    (∃ bs, packUnsignedLong 7 = some bs ∧ bs.length = 4 ∧ fromLE bs = 7) ∧
    packUnsignedLong (2 ^ 32) = none ∧
    writeArray freshWriteSession [71] [120] bigView =
      (freshWriteSession, .error .structError) := by
  refine ⟨(C4_fields_are_32bit_le_and_fail_fast 7 freshWriteSession [71]
      [120] bigView).1 (by norm_num),
    (C4_fields_are_32bit_le_and_fail_fast (2 ^ 32) freshWriteSession [71]
      [120] bigView).2.1 (le_refl _), ?_⟩
  have hlen : bigView.contentBytes.length = 2 ^ 32 := by
    rw [show bigView.contentBytes = List.replicate (2 ^ 32) 0 from rfl,
      List.length_replicate]
  refine (C4_fields_are_32bit_le_and_fail_fast 0 freshWriteSession [71]
      [120] bigView).2.2 rfl (by norm_num) (by norm_num) ?_ ?_
  · rw [hlen]
  · rw [hlen]
    unfold MAX_UNSIGNED_LONG
    norm_num

/-- The payload bound under which the value part of an attribute record
packs without struct.error: text and byte payloads must be shorter than
2 ^ 32 (their length is packed with the 4-byte format); float and int
values carry no packed length. -/
def attrPayloadSmall : AttrValue → Bool
  | .strV bs => bs.length < 2 ^ 32
  | .bytesV bs => bs.length < 2 ^ 32
  | _ => true

/-- C6: set_attr accepts exactly the four value kinds of VALID_ATTR_TYPES -
int, float, str, bytes - and for a value of any other type raises ValueError
before any mutation, so the attribute mapping and all session state are
unchanged (the error return carries no state).  For the four accepted kinds
(with name and payload lengths below the packing bound) the call succeeds,
updates exactly the attribute mapping, and returns the session otherwise
unchanged. -/
theorem C6_attr_type_gate (sess : Session) (g : GroupState)
    (an : List Nat) (v : AttrValue) :
    (isValidAttrType v = false →
      setAttr sess g an v = .error .valueError) ∧
    (isValidAttrType v = true → g.name.length < 2 ^ 32 →
      an.length < 2 ^ 32 → attrPayloadSmall v = true →
      setAttr sess g an v =
        .ok (sess, { g with attrs := dictSet g.attrs an v })) := by
  constructor
  · intro hv
    unfold setAttr
    rw [if_pos hv]
  · intro hv hg ha hp
    have h1 : packUnsignedLong g.name.length =
        some [g.name.length % 256, g.name.length / 256 % 256,
          g.name.length / 65536 % 256, g.name.length / 16777216 % 256] := by
      unfold packUnsignedLong
      rw [if_pos hg]
    have h2 : packUnsignedLong an.length =
        some [an.length % 256, an.length / 256 % 256,
          an.length / 65536 % 256, an.length / 16777216 % 256] := by
      unfold packUnsignedLong
      rw [if_pos ha]
    have hrec : ∃ r, buildAttrRecord g.name an v = .ok r := by
      cases v with
      | intV n => exact ⟨_, by simp only [buildAttrRecord, h1, h2]; rfl⟩
      | floatV p => exact ⟨_, by simp only [buildAttrRecord, h1, h2]; rfl⟩
      | strV bs =>
        have hbs : bs.length < 2 ^ 32 := by
          simpa [attrPayloadSmall] using hp
        have h3 : packUnsignedLong bs.length =
            some [bs.length % 256, bs.length / 256 % 256,
              bs.length / 65536 % 256, bs.length / 16777216 % 256] := by
          unfold packUnsignedLong
          rw [if_pos hbs]
        have h4 : bs.length ≤ MAX_UNSIGNED_LONG := by
          unfold MAX_UNSIGNED_LONG
          omega
        exact ⟨_, by simp only [buildAttrRecord, h1, h2, h3, if_pos h4]; rfl⟩
      | bytesV bs =>
        have hbs : bs.length < 2 ^ 32 := by
          simpa [attrPayloadSmall] using hp
        have h3 : packUnsignedLong bs.length =
            some [bs.length % 256, bs.length / 256 % 256,
              bs.length / 65536 % 256, bs.length / 16777216 % 256] := by
          unfold packUnsignedLong
          rw [if_pos hbs]
        have h4 : bs.length ≤ MAX_UNSIGNED_LONG := by
          unfold MAX_UNSIGNED_LONG
          omega
        exact ⟨_, by simp only [buildAttrRecord, h1, h2, h3, if_pos h4]; rfl⟩
      | otherV t => simp [isValidAttrType] at hv
    obtain ⟨r, hr⟩ := hrec
    unfold setAttr
    rw [if_neg (by simp [hv]), hr]

/-- C6 witness: the type gate evaluated at concrete inputs - a value of an
unlisted type (an instance of the class Dummy, as in the repository test) is
rejected with ValueError, and an int value is accepted and recorded. -/
theorem C6_witness :
    setAttr freshWriteSession gSample [98] (.otherV [68]) =
      .error .valueError ∧
    setAttr freshWriteSession gSample [98] (.intV 2) =
      .ok (freshWriteSession,
        { gSample with attrs := dictSet gSample.attrs [98] (.intV 2) }) := by
  exact ⟨(C6_attr_type_gate freshWriteSession gSample [98]
      (.otherV [68])).1 rfl,
    (C6_attr_type_gate freshWriteSession gSample [98] (.intV 2)).2 rfl
      (by norm_num [gSample]) (by norm_num) rfl⟩

/-- C7 counterexample: the claim states that create_group with the path
slash-A-slash-slash-B fails and adds no group to the session path map.  The
call does fail (RuntimeError from the double-slash check in _Group.__init__),
but only at the third path segment: the loop has already inserted the group
at path slash-A and a group with EMPTY name at path slash-A-slash before the
failing segment is reached, so the path map is mutated by the failed call. -/
theorem C7_counterexample_groups_added_on_failure :
    (createGroup freshWriteSession [47, 65, 47, 47, 66]).2 =
      .error .runtimeError ∧
    (createGroup freshWriteSession [47, 65, 47, 47, 66]).1.allGroups ≠
      freshWriteSession.allGroups := by
  exact ⟨rfl, by decide⟩

/-- C7 amended: create_group with the empty path raises ValueError before
touching any state (for every session), and create_group with the
double-slash path slash-A-slash-slash-B raises RuntimeError but first adds
two groups to the path map: the group A at path slash-A and a group with
empty name at path slash-A-slash. -/
theorem C7_empty_clean_doubleslash_mutates (s : Session) :
    createGroup s [] = (s, .error .valueError) ∧
    createGroup freshWriteSession [47, 65, 47, 47, 66] =
      ({ freshWriteSession with allGroups :=
          [([47, 65],
            { name := [65], path := [47, 65], attrs := [], arrays := [] }),
           ([47, 65, 47],
            { name := [], path := [47, 65, 47], attrs := [],
              arrays := [] })] },
        .error .runtimeError) := by
  constructor
  · unfold createGroup
    rw [if_pos rfl]
  · rfl

/-- C8: if the binary data file holds fewer than bytes_len bytes starting at
the handle's data_offset - in particular when it was truncated below
data_offset plus bytes_len - then read_numpy fails with IOError (the
CorruptionError of the spec taxonomy) and never returns a short array: the
short-read check compares the number of bytes actually read against
bytes_len before any decoding. -/
theorem C8_short_read_raises (sess : Session) (h : ArrayHandle)
    (hm : sess.mode = rMode)
    (hshort : sess.binaryData.length - h.dataOffset < h.bytesLen) :
    readNumpy sess h = .error .ioError := by
  unfold readNumpy
  rw [hm, if_neg (by simp)]
  simp only [List.length_take, List.length_drop]
  rw [if_pos (by omega)]

/-- A handle whose recorded payload extends past the end of a 3-byte file. -/
def truncHandle : ArrayHandle :=
  { name := [120], recordOffset := 0, dataOffset := 1,
    dtypeStr := [124, 117, 49], shape := [5], order := 67, bytesLen := 5 }

/-- C8 witness: reading a 5-byte payload recorded at offset 1 of a 3-byte
binary file fails with IOError. -/
theorem C8_witness :
    readNumpy (readSessionOver [37, 66, 73]) truncHandle =
      .error .ioError := by
  exact C8_short_read_raises (readSessionOver [37, 66, 73]) truncHandle rfl
    (by norm_num [readSessionOver, truncHandle])

/-- Characterization of a successful arrayRecordHeader: the record begins
with the ARR: tag, the packed group-name length, the group name, a colon,
the packed array-name length, the array name and a colon, followed by the
remaining header fields. -/
theorem arrayRecordHeader_ok {g a : List Nat} {d : NpView} {rec : List Nat}
    (h : arrayRecordHeader g a d = .ok rec) :
    ∃ gl al rest, packUnsignedLong g.length = some gl ∧
      packUnsignedLong a.length = some al ∧
      rec = ARR_TAG ++ gl ++ g ++ [58] ++ al ++ a ++ [58] ++ rest := by
  unfold arrayRecordHeader at h
  split at h
  · exact absurd h (by simp)
  rename_i gl hgl
  split at h
  · exact absurd h (by simp)
  rename_i al hal
  split at h
  · exact absurd h (by simp)
  rename_i bl hbl
  split at h
  · exact absurd h (by simp)
  rename_i dl hdl
  split at h
  · exact absurd h (by simp)
  rename_i nd hnd
  split at h
  · exact absurd h (by simp)
  rename_i dims hdims
  injection h with h
  refine ⟨gl, al,
    bl ++ [58] ++ dl ++ d.dtypeStr ++ [58] ++ nd ++ dims ++ [58] ++ [58]
      ++ [orderByte d], hgl, hal, ?_⟩
  rw [← h]
  simp [List.append_assoc]

/-- Characterization of a successful writeArray: the header and the
originating offset packed, the binary stream extended by header plus
payload, the log extended by the mirrored header, the packed offset and a
newline, and the returned handle's fields. -/
theorem writeArray_ok {sess s2 : Session} {g a : List Nat} {d : NpView}
    {A : ArrayHandle} (h : writeArray sess g a d = (s2, .ok A)) :
    ∃ rec off, arrayRecordHeader g a d = .ok rec ∧
      packUnsignedLong sess.binaryData.length = some off ∧
      s2 = { sess with
        binaryData := sess.binaryData ++ rec ++ d.contentBytes,
        logData := sess.logData ++ rec ++ off ++ [10] } ∧
      A = { name := a, recordOffset := sess.binaryData.length,
            dataOffset := sess.binaryData.length + rec.length,
            dtypeStr := d.dtypeStr, shape := d.shape,
            order := orderByte d, bytesLen := d.contentBytes.length } := by
  unfold writeArray at h
  split at h
  · exact absurd h (by simp)
  split at h
  · exact absurd h (by simp)
  split at h
  · exact absurd h (by simp)
  rename_i rec hrec
  split at h
  · exact absurd h (by simp)
  rename_i off hoff
  rw [Prod.mk.injEq] at h
  obtain ⟨hs, hA⟩ := h
  injection hA with hA
  refine ⟨rec, off, hrec, hoff, hs.symm, hA.symm⟩

/-- The one-element 1-byte view used by concrete write scenarios. -/
def smallView : NpView :=
  { shape := [1], dtypeStr := [124, 117, 49], fContiguous := false,
    contentBytes := [5] }

/-- create_group of the path slash-A-slash-B on a fresh write session. -/
def c5Setup : Session × Except Err GroupState :=
  createGroup freshWriteSession [47, 65, 47, 66]

/-- The group that create_group returns for that path: name B, path
slash-A-slash-B. -/
def c5GroupB : GroupState :=
  { name := [66], path := [47, 65, 47, 66], attrs := [], arrays := [] }

/-- C5 counterexample: the claim states that the record written for
create_array begins with the kind tag followed by a length-prefixed field
containing the group's ABSOLUTE slash-delimited path.  The code passes
self._name - the last path segment - to _write_array, not self._path: for
the group at path slash-A-slash-B the appended record begins with the tag
and the 4-byte-length-prefixed single byte B, and its first 12 bytes differ
from the tag followed by the length-prefixed 4-byte absolute path that the
claim requires. -/
theorem C5_counterexample_name_not_path :
    c5Setup.2 = .ok c5GroupB ∧
    (((createArrayOnGroup c5Setup.1 c5GroupB [120] smallView).1.binaryData.drop
        c5Setup.1.binaryData.length).take 9 =
      ARR_TAG ++ [1, 0, 0, 0] ++ [66]) ∧
    (((createArrayOnGroup c5Setup.1 c5GroupB [120] smallView).1.binaryData.drop
        c5Setup.1.binaryData.length).take 12 ≠
      ARR_TAG ++ [4, 0, 0, 0] ++ [47, 65, 47, 66]) := by
  refine ⟨rfl, rfl, ?_⟩
  decide

/-- C5 amended: for every array successfully written via create_array on a
group, the bytes appended to the binary data file begin with the record-kind
tag, then the length-prefixed UTF-8 group NAME (the last path segment, not
the absolute path), then the length-prefixed UTF-8 array name, each length a
4-byte little-endian field, followed by the rest of the header and the
payload. -/
theorem C5_record_starts_with_tag_and_names {sess s2 : Session}
    {g g2 : GroupState} {a : List Nat} {d : NpView}
    (h : createArrayOnGroup sess g a d = (s2, .ok g2)) :
    ∃ gl al rest, packUnsignedLong g.name.length = some gl ∧
      packUnsignedLong a.length = some al ∧
      s2.binaryData =
        sess.binaryData ++ ARR_TAG ++ gl ++ g.name ++ [58] ++ al ++ a
          ++ [58] ++ rest := by
  unfold createArrayOnGroup at h
  split at h
  rename_i sess1 e heq
  · exact absurd h (by simp)
  rename_i sess1 A heq
  rw [Prod.mk.injEq] at h
  obtain ⟨hs, _⟩ := h
  subst hs
  obtain ⟨rec, off, hrec, hoff, hs2, hA⟩ := writeArray_ok heq
  obtain ⟨gl, al, rest, hgl, hal, hrecEq⟩ := arrayRecordHeader_ok hrec
  refine ⟨gl, al, rest ++ d.contentBytes, hgl, hal, ?_⟩
  rw [hs2]
  simp only [hrecEq]
  simp [List.append_assoc]

/-- The concrete createArrayOnGroup call used by the C5 witness. -/
def c5wRes : Session × Except Err GroupState :=
  createArrayOnGroup freshWriteSession gSample [120] smallView

/-- The group state returned by that call. -/
def c5wGroup : GroupState :=
  match c5wRes.2 with
  | .ok g => g
  | .error _ => gSample

/-- C5 witness: the amended layout instantiated at a concrete write. -/
theorem C5_witness :
    ∃ gl al rest, packUnsignedLong gSample.name.length = some gl ∧
      packUnsignedLong ([120] : List Nat).length = some al ∧
      c5wRes.1.binaryData =
        freshWriteSession.binaryData ++ ARR_TAG ++ gl ++ gSample.name
          ++ [58] ++ al ++ [120] ++ [58] ++ rest := by
  exact @C5_record_starts_with_tag_and_names freshWriteSession c5wRes.1
    gSample c5wGroup [120] smallView rfl

/-- C9: for two consecutive successful array writes A then B in the same
write session with no other binary-file writes between them, the handle for
B records record_offset equal to A's data_offset plus A's bytes_len, and
each handle records data_offset equal to its record_offset plus the length
of its encoded header: the writer takes the current stream position as the
record offset, appends exactly header plus payload, and sets data_offset to
the record offset plus the header length. -/
theorem C9_offset_determinism (s0 s1 s2 : Session)
    (g1 a1 g2 a2 : List Nat) (d1 d2 : NpView) (A B : ArrayHandle)
    (r1 r2 : List Nat)
    (h1 : writeArray s0 g1 a1 d1 = (s1, .ok A))
    (h2 : writeArray s1 g2 a2 d2 = (s2, .ok B))
    (hr1 : arrayRecordHeader g1 a1 d1 = .ok r1)
    (hr2 : arrayRecordHeader g2 a2 d2 = .ok r2) :
    B.recordOffset = A.dataOffset + A.bytesLen ∧
    A.dataOffset = A.recordOffset + r1.length ∧
    B.dataOffset = B.recordOffset + r2.length := by
  obtain ⟨rec1, off1, hrec1, hoff1, hs1, hA⟩ := writeArray_ok h1
  obtain ⟨rec2, off2, hrec2, hoff2, hs2, hB⟩ := writeArray_ok h2
  have e1 : rec1 = r1 := by
    injection hrec1.symm.trans hr1
  have e2 : rec2 = r2 := by
    injection hrec2.symm.trans hr2
  subst e1 e2 hA hB hs1
  refine ⟨?_, rfl, rfl⟩
  simp [List.length_append]
  omega

/-- The handle returned by the first test write. -/
def testHandle1 : ArrayHandle :=
  match testWrite1.2 with
  | .ok h => h
  | .error _ => truncHandle

/-- The handle returned by the second test write. -/
def testHandle2 : ArrayHandle :=
  match testWrite2.2 with
  | .ok h => h
  | .error _ => truncHandle

/-- The encoded header of the first test write. -/
def testHeader1 : List Nat :=
  match arrayRecordHeader [66] [97, 114, 114, 49] arr1View with
  | .ok r => r
  | .error _ => []

/-- The encoded header of the second test write. -/
def testHeader2 : List Nat :=
  match arrayRecordHeader [66] [97, 114, 114, 50] arr2View with
  | .ok r => r
  | .error _ => []

/-- C9 witness: the offset identities instantiated at the two consecutive
test writes (the ones whose offsets 14, 57, 63, 110 the repository test
suite asserts). -/
theorem C9_witness :
    testHandle2.recordOffset = testHandle1.dataOffset + testHandle1.bytesLen ∧
    testHandle1.dataOffset = testHandle1.recordOffset + testHeader1.length ∧
    testHandle2.dataOffset = testHandle2.recordOffset + testHeader2.length := by
  exact C9_offset_determinism freshWriteSession testWrite1.1 testWrite2.1
    [66] [97, 114, 114, 49] [66] [97, 114, 114, 50] arr1View arr2View
    testHandle1 testHandle2 testHeader1 testHeader2 rfl rfl rfl rfl

/-- The metadata filename check.hbin used by the repository test, as its
byte list. -/
def checkName : List Nat := [99, 104, 101, 99, 107, 46, 104, 98, 105, 110]

/-- C10: any open call that explicitly supplies a non-None
binary_data_filename fails the assert comparing the value's class with the
value itself, and any open call that supplies a non-None log_filename (with
binary_data_filename defaulted) fails the assert comparing the value's class
with the binary data filename - in both cases an AssertionError is raised
regardless of the supplied value and of mode, before any of the three files
is opened (the trace of opened files is empty).  With both filenames left
None, the default derived filenames are usable: opening check.hbin in write
mode succeeds and opens exactly the two derived files. -/
theorem C10_explicit_filenames_assert :
    (∀ fn md lOpt ex bc lc b,
      hbinseekInit fn md (some b) lOpt ex bc lc =
        (.error .assertionError, [])) ∧
    (∀ fn md ex bc lc l,
      hbinseekInit fn md none (some l) ex bc lc =
        (.error .assertionError, [])) ∧
    hbinseekInit checkName wMode none none [] [] [] =
      (.ok freshWriteSession,
        [defaultBinaryName checkName, defaultLogName checkName]) := by
  refine ⟨?_, ?_, ?_⟩
  · intro fn md lOpt ex bc lc b
    rfl
  · intro fn md ex bc lc l
    rfl
  · rfl

end Claims

end Hbinseek
